import Mathlib

/-!
Verification development for the CODE-REFLECTION chat relay handlers.

The repository contains three near-duplicate HTTP handler variants:
* `src/api/chat.js` — tool-augmented relay (MCP keyword classification);
* `src/unnamed/part_001` — ES-module relay with model-name lookup and
  `Math.min(temperature, 2.0)` clamping;
* `src/unnamed/part_002` — same as `chat.js` without tool augmentation.

We embed each handler as a pure Lean function from (environment, request,
upstream oracle) to an abstract handler result.  JavaScript numbers are
modelled as `Rat` (all constants appearing in the source are exact in
binary floating point at the values we reason about), strings as Lean
`String`, `undefined` as `Option.none`.
-/

/-- A chat message: `{role, content}`. -/
structure Message where
  role : String
  content : String
deriving DecidableEq, Repr

/-- The JavaScript value found in the `messages` field of a request body:
either falsy/absent (`undefined`, `null`, `0`, `""`, `false`), a truthy
non-array value, or an actual array of messages.  The handlers only probe
this field with `!messages` and `Array.isArray(messages)`. -/
inductive MessagesField where
  | absent : MessagesField
  | notArray : MessagesField
  | arr : List Message → MessagesField
deriving DecidableEq, Repr

/-- JS `x || d` for an optional number: `undefined` and `0` are falsy. -/
def jsOr (v : Option Rat) (d : Rat) : Rat :=
  match v with
  | none => d
  | some x => if x = 0 then d else x

/-- JS `s || d` for an optional string: `undefined` and `""` are falsy. -/
def jsOrS (v : Option String) (d : String) : String :=
  match v with
  | none => d
  | some x => if x = "" then d else x

/-- JS truthiness of an optional string (used for `!apiKey`, `!model`). -/
def strTruthy (v : Option String) : Bool :=
  match v with
  | none => false
  | some x => x ≠ ""

/-- `part_001`, lines 63–68: map the short model keyword to the
fully-qualified Fireworks model identifier. -/
def modelName (model : String) : String :=
  if model = "qwen" then "accounts/fireworks/models/qwen3-30b-a3b"
  else "accounts/fireworks/models/deepseek-v3-0324"

/-- `part_001`, line 90: `Math.min(temperature, 2.0)`. -/
def p1NormTemp (t : Rat) : Rat := min t 2

/-- Case-sensitive list prefix test. -/
def hasPre : List Char → List Char → Bool
  | [], _ => true
  | _ :: _, [] => false
  | a :: as, b :: bs => a = b && hasPre as bs

/-- Case-sensitive list infix test (JS `String.prototype.includes`). -/
def hasSub (sub : List Char) : List Char → Bool
  | [] => hasPre sub []
  | c :: rest => hasPre sub (c :: rest) || hasSub sub rest

/-- JS `s.includes(sub)`. -/
def strContains (s sub : String) : Bool := hasSub sub.toList s.toList

/-- JS `s.toLowerCase()` (ASCII-faithful): lowercase every character. -/
def lowerStr (s : String) : String := ⟨s.data.map Char.toLower⟩

/-- Case-insensitive list prefix test (for `/…/gi` regex alternatives). -/
def hasPreCI : List Char → List Char → Bool
  | [], _ => true
  | _ :: _, [] => false
  | a :: as, b :: bs => a.toLower = b.toLower && hasPreCI as bs

/-- Length of the first alternative of `pats` matching case-insensitively
at the head of `s`, if any.  Mirrors regex alternation semantics: the
leftmost alternative that matches wins. -/
def firstAltAt (pats : List String) (s : List Char) : Option Nat :=
  pats.findSome? (fun p => if hasPreCI p.toList s then some p.toList.length else none)

/-- Fuel-driven scan for `replaceAll`; each step consumes at least one
character, so fuel `s.length` never runs out before the scan ends. -/
def replaceAllAux (pats : List String) : Nat → List Char → List Char
  | _, [] => []
  | 0, s => s
  | fuel + 1, c :: rest =>
    match firstAltAt pats (c :: rest) with
    | some n => replaceAllAux pats fuel (List.drop (n - 1) rest)
    | none => c :: replaceAllAux pats fuel rest

/-- JS `s.replace(/p1|p2|…/gi, "")`: scan left to right, removing each
leftmost non-overlapping case-insensitive match of the alternation. -/
def replaceAll (pats : List String) (s : List Char) : List Char :=
  replaceAllAux pats s.length s

/-- JS `String.prototype.trim` (ASCII whitespace suffices here). -/
def jsTrim (s : List Char) : List Char :=
  ((s.dropWhile Char.isWhitespace).reverse.dropWhile Char.isWhitespace).reverse

/-- `chat.js` lines 102–105: the web-search keyword group, tested on the
lowercased content. -/
def searchPats : List String :=
  ["search", "find", "lookup", "what is", "latest", "news", "current", "recent"]

/-- `chat.js` lines 128–130: the time keyword group. -/
def timePats : List String :=
  ["time", "date", "when", "now", "today", "current time"]

/-- `chat.js` lines 160–161: the text-analysis keyword group. -/
def analysisPats : List String :=
  ["analyze", "count words", "sentiment", "summarize"]

/-- Does the lowercased content contain any keyword of the group? -/
def anyKw (pats : List String) (c : String) : Bool :=
  pats.any (fun k => strContains c k)

/-- `chat.js` line 143: `/[+\-*\/=]/.test(messageContent)`. -/
def hasOpChar (c : String) : Bool :=
  c.toList.any (fun ch => ch = '+' || ch = '-' || ch = '*' || ch = '/' || ch = '=')

/-- The four keyword-group predicates on the lowercased content, in the
priority order of the `chat.js` if/else chain. -/
def condSearch (c : String) : Bool := anyKw searchPats (lowerStr c)

def condTime (c : String) : Bool := anyKw timePats (lowerStr c)

def condMath (c : String) : Bool :=
  anyKw ["calculate", "math", "compute"] (lowerStr c) || hasOpChar (lowerStr c)

def condAnalysis (c : String) : Bool := anyKw analysisPats (lowerStr c)

/-- `chat.js` lines 108–111: search-query extraction — strip the trigger
keywords and filler words globally and case-insensitively, then trim. -/
def searchQuery (content : String) : List Char :=
  jsTrim (replaceAll ["for", "about", "on"] (replaceAll searchPats content.toList))

/-- Character class of `chat.js` line 146: `[\d+\-*\/().\s]`. -/
def mathChar (ch : Char) : Bool :=
  ch.isDigit || ch = '+' || ch = '-' || ch = '*' || ch = '/' ||
  ch = '(' || ch = ')' || ch = '.' || ch.isWhitespace

/-- `content.match(/[\d+\-*\/().\s]+/)`: the first maximal run of
characters from the class, if any. -/
def mathRun : List Char → Option (List Char)
  | [] => none
  | c :: rest =>
    if mathChar c then some ((c :: rest).takeWhile mathChar)
    else mathRun rest

/-- `chat.js` lines 163–170: pick the text-analysis type from the
lowercased content. -/
def analysisType (c : String) : String :=
  if strContains c "word count" || strContains c "count words" then "word_count"
  else if strContains c "character count" || strContains c "count characters" then
    "character_count"
  else if strContains c "sentiment" then "sentiment"
  else "summary"

/-- Which MCP tool a request triggers, with its arguments. -/
inductive ToolCall where
  | webSearch : String → ToolCall
  | currentTime : ToolCall
  | calculate : String → ToolCall
  | textAnalysis : String → String → ToolCall
deriving DecidableEq, Repr

/-- Outcome of the single `fetch` to the MCP server inside `callMCPTool`
(`chat.js` lines 62–95): HTTP failure, JSON-RPC error object, network
exception, or success carrying `result?.content?.[0]?.text`. -/
inductive McpOutcome where
  | httpError : Nat → McpOutcome
  | rpcError : Option String → McpOutcome
  | netError : String → McpOutcome
  | ok : Option String → McpOutcome
deriving DecidableEq, Repr

/-- `chat.js` `callMCPTool`: every failure is caught and converted into a
`"Tool error: …"` string; the function never throws and never causes a
non-200 handler response. -/
def callMCPTool (o : McpOutcome) : String :=
  match o with
  | .httpError s => "Tool error: MCP Server error: " ++ toString s
  | .rpcError m => "Tool error: " ++ jsOrS m "MCP tool error"
  | .netError m => "Tool error: " ++ m
  | .ok t => jsOrS t "No response from MCP tool"

/-- `chat.js` lines 98–183: the if/else keyword-classification chain over
the final message.  Returns the tool call that will be issued, if any. -/
def classify (last : Message) : Option ToolCall :=
  if last.role = "user" then
    if condSearch last.content then
      if (searchQuery last.content).length > 2 then
        some (.webSearch (searchQuery last.content).asString)
      else none
    else if condTime last.content then some .currentTime
    else if condMath last.content then
      match mathRun last.content.toList with
      | some run => some (.calculate (jsTrim run).asString)
      | none => none
    else if condAnalysis last.content then
      some (.textAnalysis last.content (analysisType (lowerStr last.content)))
    else none
  else none

/-- The synthetic system message appended for a given tool call, with the
tool's textual result spliced in (`chat.js` lines 120–123, 135–138,
152–155, 178–181). -/
def toolMessage (t : ToolCall) (mcp : McpOutcome) : Message :=
  let txt := callMCPTool mcp
  match t with
  | .webSearch _ => ⟨"system", "Web Search Results: " ++ txt⟩
  | .currentTime => ⟨"system", "Current Time: " ++ txt⟩
  | .calculate _ => ⟨"system", "Calculation Result: " ++ txt⟩
  | .textAnalysis _ _ => ⟨"system", "Analysis Result: " ++ txt⟩

/-- `chat.js` lines 57–183: `enhancedMessages = [...messages]` plus at most
one `push` of a synthetic system message. -/
def enhance (msgs : List Message) (mcp : McpOutcome) : List Message :=
  match msgs.getLast? with
  | none => msgs
  | some last =>
    match classify last with
    | none => msgs
    | some t => msgs ++ [toolMessage t mcp]

/-- The result of `JSON.parse` on an upstream error body, restricted to the
fields the handlers probe: `fault.faultstring` and `message` (`chat.js`),
`error.message` (`part_001`). -/
inductive ErrBody where
  | notJson : String → ErrBody
  | jsonVal : Option String → Option String → Option String → String → ErrBody
deriving DecidableEq, Repr

/-- Raw text of an error body. -/
def ErrBody.raw : ErrBody → String
  | .notJson r => r
  | .jsonVal _ _ _ r => r

/-- `chat.js` lines 227–231 / 274–278:
`parsedError.fault?.faultstring || parsedError.message || errorText`. -/
def chatErrMsg (e : ErrBody) : String :=
  match e with
  | .notJson r => r
  | .jsonVal fault msg _ r => jsOrS fault (jsOrS msg r)

/-- `part_001` lines 104–112: default `"Fireworks API error (st)"`, replaced
by `errorData.error.message` when the body parses and has one, or by the
raw text (when non-empty) when it does not parse. -/
def p1ErrMsg (st : Nat) (e : ErrBody) : String :=
  let dflt := "Fireworks API error (" ++ toString st ++ ")"
  match e with
  | .notJson r => jsOrS (some r) dflt
  | .jsonVal _ _ errMsg _ => jsOrS errMsg dflt

/-- Oracle for the single `fetch` to the Fireworks completion endpoint:
HTTP status, parsed error body for the failure path, body presence,
the delivered stream chunks (byte lists), whether the stream ended
normally (`false` = `reader.read()` threw after the listed chunks), the
success JSON body, and whether `JSON.parse` of the success body throws. -/
structure FwResp where
  ok : Bool
  status : Nat
  errBody : ErrBody
  hasBody : Bool
  chunks : List (List Nat)
  streamEndOk : Bool
  okJson : String
  okJsonParses : Bool
deriving DecidableEq, Repr

/-- All upstream nondeterminism one handler invocation can observe. -/
structure Oracles where
  mcp : McpOutcome
  fw : FwResp
  exnMsg : String
deriving DecidableEq, Repr

/-- The payload sent to the Fireworks completion endpoint. -/
structure FwPayload where
  model : String
  messages : List Message
  temperature : Rat
  top_p : Rat
  top_k : Rat
  max_tokens : Rat
  presence_penalty : Rat
  frequency_penalty : Rat
  stream : Bool
deriving DecidableEq, Repr

/-- Request body common to `chat.js` and `part_002` (line 38 of each). -/
structure ChatBody where
  model : Option String
  messages : MessagesField
  temperature : Option Rat
  top_p : Option Rat
  top_k : Option Rat
  max_tokens : Option Rat
  presence_penalty : Option Rat
  frequency_penalty : Option Rat
  stream : Option Bool
  tools : Option (List String)
  tool_choice : Option String
deriving DecidableEq, Repr

/-- JS truthiness of the `stream` field (`if (stream)`). -/
def streamTruthy (v : Option Bool) : Bool :=
  match v with
  | none => false
  | some b => b

/-- `chat.js` lines 186–197 (= `part_002` lines 58–69): the Fireworks
payload with `||`-defaulted sampling parameters. -/
def chatPayload (model : String) (msgs : List Message) (b : ChatBody) : FwPayload where
  model := model
  messages := msgs
  temperature := jsOr b.temperature 0.3
  top_p := jsOr b.top_p 0.9
  top_k := jsOr b.top_k 40
  max_tokens := jsOr b.max_tokens 8192
  presence_penalty := jsOr b.presence_penalty 0
  frequency_penalty := jsOr b.frequency_penalty 0
  stream := streamTruthy b.stream

/-- Abstract handler outcome: a JSON object response with string fields, an
opaque JSON data response, a streamed byte response (with whether the
`catch` wrote the 500 `"Streaming interrupted"` trailer and whether the
connection was ended), an empty response, or an unhandled crash. -/
inductive HandlerResult where
  | jsonResp : Nat → List (String × String) → HandlerResult
  | dataResp : Nat → String → HandlerResult
  | streamResp : List (List Nat) → Bool → Bool → HandlerResult
  | emptyResp : Nat → HandlerResult
  | crash : HandlerResult
deriving DecidableEq, Repr

/-- The HTTP status a result carries, when it has one. -/
def statusOf : HandlerResult → Option Nat
  | .jsonResp st _ => some st
  | .dataResp st _ => some st
  | .streamResp _ _ _ => some 200
  | .emptyResp st => some st
  | .crash => none

/-- Field names of a JSON object response. -/
def jsonKeys : HandlerResult → List String
  | .jsonResp _ fs => fs.map Prod.fst
  | _ => []

/-- `chat.js` lines 249–256 (and `part_002` lines 121–128): the forward
loop — read one chunk, write it, repeat until done. -/
def relayWrites : List (List Nat) → List (List Nat)
  | [] => []
  | c :: rest => c :: relayWrites rest

/-- An HTTP request as the handlers see it. -/
structure JsReq (β : Type) where
  method : String
  body : Option β
deriving DecidableEq, Repr

/-- Environment configuration: `process.env.FIREWORKS_API_KEY`. -/
structure ChatEnv where
  apiKey : Option String
deriving DecidableEq, Repr

/-- `chat.js` line 41: `!model || !messages || !Array.isArray(messages) ||
messages.length === 0`. -/
def chatFieldsInvalid (b : ChatBody) : Bool :=
  !strTruthy b.model ||
  (match b.messages with
   | .absent => true
   | .notArray => true
   | .arr ms => ms.isEmpty)

/-- The message list carried by a validated `messages` field. -/
def msgsOf (m : MessagesField) : List Message :=
  match m with
  | .arr ms => ms
  | _ => []

/-- The message list when `chatFieldsInvalid` is false. -/
def chatMsgs (b : ChatBody) : List Message := msgsOf b.messages

/-- Shared streaming/non-streaming dispatch of `chat.js` (lines 213–293)
and `part_002` (lines 85–165), after the payload is built. -/
def chatDispatch (p : FwPayload) (orc : Oracles) : HandlerResult :=
  if p.stream then
    if !orc.fw.ok then
      .jsonResp orc.fw.status
        [("error", "API request failed"), ("message", chatErrMsg orc.fw.errBody)]
    else if !orc.fw.hasBody then
      .jsonResp 500 [("error", "No response body from DeepSeek-V3-0324 API")]
    else
      .streamResp (relayWrites orc.fw.chunks) (!orc.fw.streamEndOk) true
  else
    if !orc.fw.ok then
      .jsonResp orc.fw.status
        [("error", "API request failed"), ("message", chatErrMsg orc.fw.errBody)]
    else if !orc.fw.okJsonParses then
      .jsonResp 500 [("error", "Internal server error"), ("message", orc.exnMsg)]
    else
      .dataResp 200 orc.fw.okJson

/-- `src/api/chat.js`: the tool-augmented relay handler. -/
def chatHandler (env : ChatEnv) (req : JsReq ChatBody) (orc : Oracles) :
    HandlerResult :=
  if req.method = "OPTIONS" then .emptyResp 200
  else if req.method ≠ "POST" then .jsonResp 405 [("error", "Method not allowed")]
  else if !strTruthy env.apiKey then
    .jsonResp 500
      [("error", "Server configuration error"),
       ("message", "API key not configured. Please check server environment variables.")]
  else
    match req.body with
    | none =>
      .jsonResp 400
        [("error", "Bad request"), ("message", "Request body is missing or malformed.")]
    | some b =>
      if chatFieldsInvalid b then
        .jsonResp 400
          [("error", "Bad request"),
           ("message", "Missing or invalid required fields: \"model\" (string) and \"messages\" (non-empty array) are required.")]
      else
        let msgs := chatMsgs b
        let enhanced := enhance msgs orc.mcp
        chatDispatch (chatPayload (b.model.getD "") enhanced b) orc

/-- `src/unnamed/part_002`: identical to `chat.js` but with no tool
augmentation — the caller's messages are forwarded as-is. -/
def part002Handler (env : ChatEnv) (req : JsReq ChatBody) (orc : Oracles) :
    HandlerResult :=
  if req.method = "OPTIONS" then .emptyResp 200
  else if req.method ≠ "POST" then .jsonResp 405 [("error", "Method not allowed")]
  else if !strTruthy env.apiKey then
    .jsonResp 500
      [("error", "Server configuration error"),
       ("message", "API key not configured. Please check server environment variables.")]
  else
    match req.body with
    | none =>
      .jsonResp 400
        [("error", "Bad request"), ("message", "Request body is missing or malformed.")]
    | some b =>
      if chatFieldsInvalid b then
        .jsonResp 400
          [("error", "Bad request"),
           ("message", "Missing or invalid required fields: \"model\" (string) and \"messages\" (non-empty array) are required.")]
      else
        chatDispatch (chatPayload (b.model.getD "") (chatMsgs b) b) orc

/-- Request body of `src/unnamed/part_001` (lines 37–45); the destructuring
defaults apply only to `undefined` fields. -/
structure P1Body where
  messages : MessagesField
  temperature : Option Rat
  top_p : Option Rat
  top_k : Option Rat
  max_tokens : Option Rat
  stream : Option Bool
  model : Option String
deriving DecidableEq, Repr

/-- `part_001` lines 87–97: the Fireworks payload, with destructuring
defaults (`0.6`, `1`, `40`, `4096`, `true`, `"deepseek"`) and the
`Math.min(temperature, 2.0)` clamp. -/
def p1Payload (b : P1Body) : FwPayload where
  model := modelName (b.model.getD "deepseek")
  messages := msgsOf b.messages
  temperature := p1NormTemp (b.temperature.getD 0.6)
  top_p := b.top_p.getD 1
  top_k := b.top_k.getD 40
  max_tokens := b.max_tokens.getD 4096
  presence_penalty := 0
  frequency_penalty := 0
  stream := b.stream.getD true

/-- `part_001` line 48: `!messages || !Array.isArray(messages)` — note an
empty array is accepted by this variant. -/
def p1MessagesInvalid (m : MessagesField) : Bool :=
  match m with
  | .absent => true
  | .notArray => true
  | .arr _ => false

/-- `src/unnamed/part_001`: the ES-module relay handler.  Validation of
`messages` (line 48) precedes the credential check (lines 53–61); a missing
body makes the destructuring throw and the catch block then dereferences
`req.body.model` and throws again, an unhandled rejection (`crash`).  An
upstream non-2xx is re-thrown (line 114) and lands in the catch (lines
146–153).  The streamed text chunks are identified with their bytes (the
`TextDecoder`/`res.write` round trip on the relayed event stream). -/
def part001Handler (env : ChatEnv) (req : JsReq P1Body) (orc : Oracles) :
    HandlerResult :=
  if req.method = "OPTIONS" then .emptyResp 204
  else if req.method ≠ "POST" then .jsonResp 405 [("error", "Method not allowed")]
  else
    match req.body with
    | none => .crash
    | some b =>
      if p1MessagesInvalid b.messages then
        .jsonResp 400 [("error", "Invalid messages format")]
      else if !strTruthy env.apiKey then
        .jsonResp 500
          [("error", "API configuration error"),
           ("message", "Fireworks API key not configured")]
      else
        if !orc.fw.ok then
          .jsonResp 500
            [("error", "Internal server error"),
             ("message", p1ErrMsg orc.fw.status orc.fw.errBody),
             ("model", jsOrS b.model "unknown")]
        else if (p1Payload b).stream then
          if !orc.fw.hasBody then
            .jsonResp 500
              [("error", "Internal server error"), ("message", orc.exnMsg),
               ("model", jsOrS b.model "unknown")]
          else
            .streamResp (relayWrites orc.fw.chunks) false true
        else
          if !orc.fw.okJsonParses then
            .jsonResp 500
              [("error", "Internal server error"), ("message", orc.exnMsg),
               ("model", jsOrS b.model "unknown")]
          else
            .dataResp 200 orc.fw.okJson


/-! ## Helper lemmas -/

/-- The appended tool message always has role `"system"`. -/
lemma toolMessage_role (t : ToolCall) (mcp : McpOutcome) :
    (toolMessage t mcp).role = "system" := by
  cases t <;> rfl

/-- Tool augmentation either leaves the message list untouched or appends
exactly one system message. -/
lemma enhance_cases (msgs : List Message) (mcp : McpOutcome) :
    enhance msgs mcp = msgs ∨
    ∃ m, m.role = "system" ∧ enhance msgs mcp = msgs ++ [m] := by
  unfold enhance
  cases msgs.getLast? with
  | none => exact Or.inl rfl
  | some last =>
    cases h : classify last with
    | none => simp [h]
    | some t =>
      exact Or.inr ⟨toolMessage t mcp, toolMessage_role t mcp, by simp [h]⟩

/-- The forward loop writes exactly the chunks it reads, in order. -/
lemma relayWrites_eq (l : List (List Nat)) : relayWrites l = l := by
  induction l with
  | nil => rfl
  | cons c rest ih => simp [relayWrites, ih]

/-- A convenient concrete oracle for closed counterexamples. -/
def someOrc : Oracles :=
  ⟨.ok none, ⟨true, 200, .notJson "", true, [], true, "ok", true⟩, "exn"⟩

/-! ## C1 -/

/-- Concrete `part_001` body with a truthy non-array `messages` field. -/
def c1Body : P1Body := ⟨.notArray, none, none, none, none, none, none⟩

/-- C1 counterexample: with the credential absent from the environment, the
`part_001` handler answers a POST whose `messages` field is not an array
with status 400, not 500 — its `messages` validation precedes the
credential check. -/
theorem c1_counterexample :
    part001Handler ⟨none⟩ ⟨"POST", some c1Body⟩ someOrc =
      .jsonResp 400 [("error", "Invalid messages format")] ∧
    statusOf (part001Handler ⟨none⟩ ⟨"POST", some c1Body⟩ someOrc) ≠ some 500 := by
  exact ⟨by decide, by decide⟩

/-- C1 (amended): with the credential absent, the `chat.js` and `part_002`
handlers answer every POST with the 500 configuration error, regardless of
the body; the `part_001` handler does so only for requests whose `messages`
field passes its validation, since that validation runs first. -/
theorem c1_amended :
    (∀ (body : Option ChatBody) (orc : Oracles),
      chatHandler ⟨none⟩ ⟨"POST", body⟩ orc =
        .jsonResp 500
          [("error", "Server configuration error"),
           ("message", "API key not configured. Please check server environment variables.")]) ∧
    (∀ (body : Option ChatBody) (orc : Oracles),
      part002Handler ⟨none⟩ ⟨"POST", body⟩ orc =
        .jsonResp 500
          [("error", "Server configuration error"),
           ("message", "API key not configured. Please check server environment variables.")]) ∧
    (∀ (b : P1Body) (orc : Oracles), p1MessagesInvalid b.messages = false →
      part001Handler ⟨none⟩ ⟨"POST", some b⟩ orc =
        .jsonResp 500
          [("error", "API configuration error"),
           ("message", "Fireworks API key not configured")]) := by
  refine ⟨fun body orc => rfl, fun body orc => rfl, fun b orc h => ?_⟩
  simp [part001Handler, h, strTruthy]

/-- C1 amended witness at concrete inputs. -/
theorem c1_amended_witness :
    chatHandler ⟨none⟩ ⟨"POST", some ⟨some "m", .notArray, none, none, none,
        none, none, none, none, none, none⟩⟩ someOrc =
      .jsonResp 500
        [("error", "Server configuration error"),
         ("message", "API key not configured. Please check server environment variables.")] ∧
    part001Handler ⟨none⟩ ⟨"POST", some ⟨.arr [], none, none, none, none, none, none⟩⟩
        someOrc =
      .jsonResp 500
        [("error", "API configuration error"),
         ("message", "Fireworks API key not configured")] := by
  exact ⟨c1_amended.1 _ someOrc,
    c1_amended.2.2 ⟨.arr [], none, none, none, none, none, none⟩ someOrc rfl⟩

/-! ## C2 -/

/-- Concrete `part_001` body supplying temperature `-1`. -/
def c2Body : P1Body := ⟨.arr [⟨"user", "hi"⟩], some (-1), none, none, none, none, none⟩

/-- C2 counterexample: `-1` lies outside the accepted range `[0, 2]`, whose
nearest boundary is `0`, yet `part_001` sends `-1` upstream unchanged —
`Math.min(temperature, 2.0)` clamps only from above. -/
theorem c2_counterexample :
    (p1Payload c2Body).temperature = -1 ∧
    (-1 : Rat) < 0 ∧ (p1Payload c2Body).temperature ≠ 0 := by
  refine ⟨?_, by norm_num, ?_⟩ <;> decide

/-- C2 (amended): `part_001` temperature normalization is an idempotent,
monotone, upper-only clamp: values at most `2` (including values below `0`)
pass through unchanged, values above `2` clamp to `2`; no lower boundary is
enforced.  In the payload the supplied temperature (defaulted to `0.6` when
omitted) is passed through this clamp. -/
theorem c2_amended :
    (∀ t : Rat, t ≤ 2 → p1NormTemp t = t) ∧
    (∀ t : Rat, 2 < t → p1NormTemp t = 2) ∧
    (∀ t : Rat, p1NormTemp (p1NormTemp t) = p1NormTemp t) ∧
    Monotone p1NormTemp ∧
    (∀ (b : P1Body) (t : Rat), b.temperature = some t →
      (p1Payload b).temperature = p1NormTemp t) := by
  refine ⟨fun t h => min_eq_left h, fun t h => min_eq_right h.le, fun t => ?_,
    monotone_id.min monotone_const, fun b t h => by simp [p1Payload, h]⟩
  simp [p1NormTemp, min_assoc]

/-- C2 amended witness at concrete inputs. -/
theorem c2_amended_witness :
    p1NormTemp (-1) = -1 ∧ p1NormTemp 3 = 2 ∧
    (p1Payload c2Body).temperature = p1NormTemp (-1) := by
  refine ⟨c2_amended.1 (-1) (by norm_num), c2_amended.2.1 3 (by norm_num),
    c2_amended.2.2.2.2 c2Body (-1) rfl⟩

/-! ## C3 -/

/-- The first keyword group (1 = search, 2 = time, 3 = math, 4 = analysis)
matching the content, in the fixed priority order of the if/else chain. -/
def firstGroup (c : String) : Option Nat :=
  if condSearch c then some 1
  else if condTime c then some 2
  else if condMath c then some 3
  else if condAnalysis c then some 4
  else none

/-- The keyword group a tool call belongs to. -/
def toolGroup : ToolCall → Nat
  | .webSearch _ => 1
  | .currentTime => 2
  | .calculate _ => 3
  | .textAnalysis _ _ => 4

/-- How many of the four keyword groups the content matches. -/
def matchCount (c : String) : Nat :=
  [condSearch c, condTime c, condMath c, condAnalysis c].count true

/-- Any tool call issued by `classify` belongs to the first matching group. -/
lemma classify_group (last : Message) (t : ToolCall)
    (h : classify last = some t) :
    firstGroup last.content = some (toolGroup t) := by
  unfold classify at h
  unfold firstGroup
  split at h
  · split at h
    · rename_i h1
      rw [if_pos h1]
      split at h
      · cases h; rfl
      · cases h
    · rename_i h1
      rw [if_neg h1]
      split at h
      · rename_i h2
        rw [if_pos h2]
        cases h; rfl
      · rename_i h2
        rw [if_neg h2]
        split at h
        · rename_i h3
          rw [if_pos h3]
          split at h
          · cases h; rfl
          · cases h
        · rename_i h3
          rw [if_neg h3]
          split at h
          · rename_i h4
            rw [if_pos h4]
            cases h; rfl
          · cases h
  · cases h

/-- C3: for a final user message matching more than one keyword group, only
the first matching group in the fixed priority order can trigger a tool
invocation, and the forwarded list gains at most one system message. -/
theorem c3_confirmed (msgs : List Message) (last : Message) (mcp : McpOutcome)
    (_hl : msgs.getLast? = some last) (_hr : last.role = "user")
    (_hm : 2 ≤ matchCount last.content) :
    (∀ t, classify last = some t → firstGroup last.content = some (toolGroup t)) ∧
    (enhance msgs mcp = msgs ∨
      ∃ m, m.role = "system" ∧ enhance msgs mcp = msgs ++ [m]) ∧
    (enhance msgs mcp).length ≤ msgs.length + 1 := by
  refine ⟨fun t ht => classify_group last t ht, enhance_cases msgs mcp, ?_⟩
  rcases enhance_cases msgs mcp with h | ⟨m, _, h⟩ <;> simp [h]

/-- C3 witness: a message matching the search, time and math groups at
once. -/
theorem c3_confirmed_witness :
    (∀ t, classify ⟨"user", "search the news now and calculate 2+2"⟩ = some t →
      firstGroup "search the news now and calculate 2+2" = some (toolGroup t)) ∧
    (enhance [⟨"user", "search the news now and calculate 2+2"⟩] (.ok none) =
        [⟨"user", "search the news now and calculate 2+2"⟩] ∨
      ∃ m, m.role = "system" ∧
        enhance [⟨"user", "search the news now and calculate 2+2"⟩] (.ok none) =
          [⟨"user", "search the news now and calculate 2+2"⟩] ++ [m]) ∧
    (enhance [⟨"user", "search the news now and calculate 2+2"⟩] (.ok none)).length ≤
      [(⟨"user", "search the news now and calculate 2+2"⟩ : Message)].length + 1 :=
  c3_confirmed [⟨"user", "search the news now and calculate 2+2"⟩]
    ⟨"user", "search the news now and calculate 2+2"⟩ (.ok none)
    (by decide) rfl (by decide)

/-! ## C4 -/

/-- Concrete tool-augmented request whose final user message triggers the
time tool. -/
def c4Body : ChatBody :=
  ⟨some "m", .arr [⟨"user", "what time is it"⟩], none, none, none, none,
   none, none, none, none, none⟩

/-- Oracle in which the MCP endpoint answers with HTTP 503 while the
completion call succeeds. -/
def c4Orc : Oracles :=
  ⟨.httpError 503, ⟨true, 200, .notJson "", true, [], true, "done", true⟩, "exn"⟩

/-- C4 counterexample: with the tool-invocation endpoint failing (HTTP 503),
the handler still answers 200 with the completion body — the failure is
swallowed into the appended system message, not wrapped into a 500. -/
theorem c4_counterexample :
    chatHandler ⟨some "k"⟩ ⟨"POST", some c4Body⟩ c4Orc = .dataResp 200 "done" ∧
    statusOf (chatHandler ⟨some "k"⟩ ⟨"POST", some c4Body⟩ c4Orc) ≠ some 500 ∧
    enhance [⟨"user", "what time is it"⟩] (.httpError 503) =
      [⟨"user", "what time is it"⟩,
       ⟨"system", "Current Time: Tool error: MCP Server error: 503"⟩] := by
  refine ⟨by decide, by decide, by decide⟩

/-- C4 (amended): a tool-invocation failure (non-2xx or JSON-RPC error) is
converted by `callMCPTool` into a `"Tool error: …"` string that is embedded
into the appended system message; the handler response is entirely
independent of the MCP outcome — same result for any two outcomes — so no
tool failure is ever surfaced as a 500 envelope. -/
theorem c4_amended :
    (∀ st : Nat,
      callMCPTool (.httpError st) = "Tool error: MCP Server error: " ++ toString st) ∧
    (∀ msg : String, msg ≠ "" →
      callMCPTool (.rpcError (some msg)) = "Tool error: " ++ msg) ∧
    (∀ (env : ChatEnv) (req : JsReq ChatBody) (m₁ m₂ : McpOutcome)
      (fw : FwResp) (ex : String),
      chatHandler env req ⟨m₁, fw, ex⟩ = chatHandler env req ⟨m₂, fw, ex⟩) := by
  refine ⟨fun st => rfl, fun msg h => by simp [callMCPTool, jsOrS, h], ?_⟩
  intro env req m₁ m₂ fw ex
  unfold chatHandler
  cases req.body <;> simp [chatDispatch, chatPayload]

/-- C4 amended witness at concrete inputs. -/
theorem c4_amended_witness :
    callMCPTool (.httpError 503) = "Tool error: MCP Server error: " ++ toString 503 ∧
    callMCPTool (.rpcError (some "boom")) = "Tool error: " ++ "boom" ∧
    chatHandler ⟨some "k"⟩ ⟨"POST", some c4Body⟩ c4Orc =
      chatHandler ⟨some "k"⟩ ⟨"POST", some c4Body⟩ ⟨.ok none, c4Orc.fw, "exn"⟩ :=
  ⟨c4_amended.1 503, c4_amended.2.1 "boom" (by decide),
   c4_amended.2.2 ⟨some "k"⟩ ⟨"POST", some c4Body⟩ (.httpError 503) (.ok none)
     c4Orc.fw "exn"⟩

/-! ## C5 -/

/-- C5: on the streaming path with a healthy upstream, the relay writes
exactly the chunks it reads, in order — the concatenation of written bytes
equals the concatenation of read bytes — and the client connection is
ended when the upstream stream ends, with no interruption trailer. -/
theorem c5_confirmed (env : ChatEnv) (b : ChatBody) (orc : Oracles)
    (hkey : strTruthy env.apiKey = true)
    (hval : chatFieldsInvalid b = false)
    (hstream : streamTruthy b.stream = true)
    (hok : orc.fw.ok = true) (hbody : orc.fw.hasBody = true)
    (hend : orc.fw.streamEndOk = true) :
    ∃ written,
      chatHandler env ⟨"POST", some b⟩ orc = .streamResp written false true ∧
      written = orc.fw.chunks ∧
      written.flatten = orc.fw.chunks.flatten := by
  refine ⟨relayWrites orc.fw.chunks, ?_, relayWrites_eq orc.fw.chunks,
    by rw [relayWrites_eq]⟩
  simp [chatHandler, hkey, hval, chatDispatch, chatPayload, hstream, hok,
    hbody, hend]

/-- C5 witness: a concrete two-chunk stream is relayed verbatim. -/
theorem c5_confirmed_witness :
    ∃ written,
      chatHandler ⟨some "k"⟩
          ⟨"POST", some ⟨some "m", .arr [⟨"user", "hi"⟩], none, none, none,
            none, none, none, some true, none, none⟩⟩
          ⟨.ok none, ⟨true, 200, .notJson "", true, [[1, 2], [3]], true, "ok", true⟩,
           "exn"⟩ =
        .streamResp written false true ∧
      written = [[1, 2], [3]] ∧
      written.flatten = ([[1, 2], [3]] : List (List Nat)).flatten :=
  c5_confirmed ⟨some "k"⟩
    ⟨some "m", .arr [⟨"user", "hi"⟩], none, none, none, none, none, none,
     some true, none, none⟩
    ⟨.ok none, ⟨true, 200, .notJson "", true, [[1, 2], [3]], true, "ok", true⟩, "exn"⟩
    (by decide) (by decide) (by decide) (by decide) (by decide) (by decide)

/-! ## C6 -/

/-- C6: model keyword resolution is a total deterministic function: the
recognized keyword `"qwen"` always resolves to the qwen identifier, every
other string resolves to the default deepseek-v3-0324 identifier, and the
`part_001` payload uses exactly this resolution (with `"deepseek"` as the
destructuring default for an omitted field). -/
theorem c6_confirmed :
    modelName "qwen" = "accounts/fireworks/models/qwen3-30b-a3b" ∧
    (∀ s : String, s ≠ "qwen" →
      modelName s = "accounts/fireworks/models/deepseek-v3-0324") ∧
    (∀ b : P1Body, (p1Payload b).model = modelName (b.model.getD "deepseek")) := by
  exact ⟨rfl, fun s h => by simp [modelName, h], fun b => rfl⟩

/-- C6 witness: an unrecognized keyword resolves to the default. -/
theorem c6_confirmed_witness :
    modelName "llama" = "accounts/fireworks/models/deepseek-v3-0324" ∧
    modelName "deepseek" = "accounts/fireworks/models/deepseek-v3-0324" :=
  ⟨c6_confirmed.2.1 "llama" (by decide), c6_confirmed.2.1 "deepseek" (by decide)⟩

/-! ## C7 -/

/-- Concrete `chat.js` body with a truthy non-array `messages` field. -/
def c7Body : ChatBody :=
  ⟨some "m", .notArray, none, none, none, none, none, none, none, none, none⟩

/-- C7 counterexample: in `chat.js` the credential check precedes the field
validation, so a POST with a non-array `messages` field gets 500, not 400,
when the credential is absent. -/
theorem c7_counterexample :
    chatHandler ⟨none⟩ ⟨"POST", some c7Body⟩ someOrc =
      .jsonResp 500
        [("error", "Server configuration error"),
         ("message", "API key not configured. Please check server environment variables.")] ∧
    statusOf (chatHandler ⟨none⟩ ⟨"POST", some c7Body⟩ someOrc) ≠ some 400 := by
  exact ⟨by decide, by decide⟩

/-- C7 (amended): provided the credential is configured (for the
`chat.js`/`part_002` variants, whose credential check runs first) and the
body is present, every POST whose `messages` field is absent or not an
array is answered 400 with a JSON object whose fields include `error`; the
`part_001` variant does so regardless of the credential. -/
theorem c7_amended (env env' : ChatEnv) (b : ChatBody) (b1 : P1Body)
    (orc : Oracles) (hkey : strTruthy env.apiKey = true)
    (hb : b.messages = .absent ∨ b.messages = .notArray)
    (hb1 : b1.messages = .absent ∨ b1.messages = .notArray) :
    (statusOf (chatHandler env ⟨"POST", some b⟩ orc) = some 400 ∧
      "error" ∈ jsonKeys (chatHandler env ⟨"POST", some b⟩ orc)) ∧
    (statusOf (part002Handler env ⟨"POST", some b⟩ orc) = some 400 ∧
      "error" ∈ jsonKeys (part002Handler env ⟨"POST", some b⟩ orc)) ∧
    (statusOf (part001Handler env' ⟨"POST", some b1⟩ orc) = some 400 ∧
      "error" ∈ jsonKeys (part001Handler env' ⟨"POST", some b1⟩ orc)) := by
  have hinv : chatFieldsInvalid b = true := by
    rcases hb with h | h <;> simp [chatFieldsInvalid, h]
  have hinv1 : p1MessagesInvalid b1.messages = true := by
    rcases hb1 with h | h <;> simp [p1MessagesInvalid, h]
  refine ⟨?_, ?_, ?_⟩ <;>
    simp [chatHandler, part002Handler, part001Handler, hkey, hinv, hinv1,
      statusOf, jsonKeys]

/-- C7 amended witness at concrete inputs. -/
theorem c7_amended_witness :
    (statusOf (chatHandler ⟨some "k"⟩ ⟨"POST", some c7Body⟩ someOrc) = some 400 ∧
      "error" ∈ jsonKeys (chatHandler ⟨some "k"⟩ ⟨"POST", some c7Body⟩ someOrc)) ∧
    (statusOf (part002Handler ⟨some "k"⟩ ⟨"POST", some c7Body⟩ someOrc) = some 400 ∧
      "error" ∈ jsonKeys (part002Handler ⟨some "k"⟩ ⟨"POST", some c7Body⟩ someOrc)) ∧
    (statusOf (part001Handler ⟨none⟩ ⟨"POST", some c1Body⟩ someOrc) = some 400 ∧
      "error" ∈ jsonKeys (part001Handler ⟨none⟩ ⟨"POST", some c1Body⟩ someOrc)) :=
  c7_amended ⟨some "k"⟩ ⟨none⟩ c7Body c1Body someOrc (by decide)
    (Or.inr rfl) (Or.inr rfl)

/-! ## C8 -/

/-- C8 counterexample: the 405 response of `chat.js` is a JSON object with
an `error` field but no `message` field, contradicting "every error
response … contains at least an `error` category string and a
human-readable `message` string". -/
theorem c8_counterexample :
    chatHandler ⟨some "k"⟩ ⟨"GET", none⟩ someOrc =
      .jsonResp 405 [("error", "Method not allowed")] ∧
    "message" ∉ jsonKeys (chatHandler ⟨some "k"⟩ ⟨"GET", none⟩ someOrc) ∧
    "message" ∉ jsonKeys (part001Handler ⟨some "k"⟩ ⟨"POST", some c1Body⟩ someOrc) := by
  refine ⟨by decide, by decide, by decide⟩

/-- Every JSON-object response issued by the shared dispatch has `error`
as its first field. -/
lemma chatDispatch_err (p : FwPayload) (orc : Oracles) (st : Nat)
    (fs : List (String × String)) (h : chatDispatch p orc = .jsonResp st fs) :
    ∃ v rest, fs = ("error", v) :: rest := by
  unfold chatDispatch at h
  repeat' split at h
  all_goals
    first
      | (simp only [HandlerResult.jsonResp.injEq] at h; exact ⟨_, _, h.2.symm⟩)
      | exact absurd h (by simp)

/-- C8 (amended): every JSON-object response any of the three handlers
produces — in particular every error response that is JSON — carries an
`error` string as its first field; the `message` field is not universal
(the 405 responses and the `part_001` 400 response lack it), and the
mid-stream failure reply is a plain-text trailer rather than JSON. -/
theorem c8_amended :
    (∀ (env : ChatEnv) (req : JsReq ChatBody) (orc : Oracles) (st : Nat)
      (fs : List (String × String)), chatHandler env req orc = .jsonResp st fs →
      ∃ v rest, fs = ("error", v) :: rest) ∧
    (∀ (env : ChatEnv) (req : JsReq ChatBody) (orc : Oracles) (st : Nat)
      (fs : List (String × String)), part002Handler env req orc = .jsonResp st fs →
      ∃ v rest, fs = ("error", v) :: rest) ∧
    (∀ (env : ChatEnv) (req : JsReq P1Body) (orc : Oracles) (st : Nat)
      (fs : List (String × String)), part001Handler env req orc = .jsonResp st fs →
      ∃ v rest, fs = ("error", v) :: rest) := by
  refine ⟨?_, ?_, ?_⟩ <;> intro env req orc st fs h
  · unfold chatHandler at h
    repeat' split at h
    all_goals
      first
        | exact chatDispatch_err _ _ _ _ h
        | (simp only [HandlerResult.jsonResp.injEq] at h; exact ⟨_, _, h.2.symm⟩)
        | exact absurd h (by simp)
  · unfold part002Handler at h
    repeat' split at h
    all_goals
      first
        | exact chatDispatch_err _ _ _ _ h
        | (simp only [HandlerResult.jsonResp.injEq] at h; exact ⟨_, _, h.2.symm⟩)
        | exact absurd h (by simp)
  · unfold part001Handler at h
    repeat' split at h
    all_goals
      first
        | (simp only [HandlerResult.jsonResp.injEq] at h; exact ⟨_, _, h.2.symm⟩)
        | exact absurd h (by simp)

/-- C8 amended witness at a concrete input. -/
theorem c8_amended_witness :
    ∃ v rest,
      [("error", "Method not allowed")] = (("error", v) :: rest : List (String × String)) :=
  c8_amended.1 ⟨some "k"⟩ ⟨"GET", none⟩ someOrc 405
    [("error", "Method not allowed")] (by decide)

/-! ## C9 -/

/-- C9: under `||`-defaulting, an explicitly supplied `0` for a sampling
parameter is indistinguishable from an omitted one — the whole upstream
payload is identical — and the documented defaults (`0.3` for temperature,
`8192` for max_tokens) are what is sent in both cases. -/
theorem c9_confirmed (mdl : String) (msgs : List Message)
    (m : Option String) (ms : MessagesField) (p k mt pp fp : Option Rat)
    (st : Option Bool) (tl : Option (List String)) (tc : Option String) :
    (∀ tmp : Option Rat,
      chatPayload mdl msgs ⟨m, ms, some 0, p, k, mt, pp, fp, st, tl, tc⟩ =
        chatPayload mdl msgs ⟨m, ms, none, p, k, mt, pp, fp, st, tl, tc⟩ ∧
      chatPayload mdl msgs ⟨m, ms, tmp, p, k, some 0, pp, fp, st, tl, tc⟩ =
        chatPayload mdl msgs ⟨m, ms, tmp, p, k, none, pp, fp, st, tl, tc⟩) ∧
    (chatPayload mdl msgs ⟨m, ms, some 0, p, k, mt, pp, fp, st, tl, tc⟩).temperature
      = 0.3 ∧
    (chatPayload mdl msgs ⟨m, ms, none, p, k, mt, pp, fp, st, tl, tc⟩).temperature
      = 0.3 ∧
    (chatPayload mdl msgs ⟨m, ms, mt, p, k, none, pp, fp, st, tl, tc⟩).max_tokens
      = 8192 ∧
    (chatPayload mdl msgs ⟨m, ms, mt, p, k, some 0, pp, fp, st, tl, tc⟩).max_tokens
      = 8192 := by
  refine ⟨fun tmp => ⟨?_, ?_⟩, ?_, ?_, ?_, ?_⟩ <;> simp [chatPayload, jsOr]

/-! ## C10 -/

/-- C10: tool augmentation never edits, drops, or reorders the caller's
messages — the list placed in the upstream payload is the original list,
possibly followed by exactly one appended system message. -/
theorem c10_confirmed (msgs : List Message) (mcp : McpOutcome) (mdl : String)
    (b : ChatBody) :
    (chatPayload mdl (enhance msgs mcp) b).messages = enhance msgs mcp ∧
    (enhance msgs mcp = msgs ∨
      ∃ m, m.role = "system" ∧ enhance msgs mcp = msgs ++ [m]) :=
  ⟨rfl, enhance_cases msgs mcp⟩
